import Mathlib

/-!
Verification of the emergency-dispatch-transcriber pipeline (src/main.py).

The Python source is shallowly embedded: each relevant function becomes a
Lean definition over explicit state (traces of effects), with blocking
loops given a fuel parameter so that non-termination is observable as the
distinguished outcome of running out of fuel.
-/

namespace Transcriber

/-! ## Stability waiter: `wait_for_file_write_completion` (src/main.py:29-37)

The Python loop samples `file_path.stat().st_size` starting from the
sentinel `file_size = -1`; it breaks when two consecutive samples are
equal, otherwise stores the sample and sleeps `check_interval` before the
next poll.  The file system is modelled as a function from the sample
index to `Option Nat`: `some n` is a successful `stat` returning size `n`,
`none` is the path having vanished, where Python's `stat` raises `IOError`.
-/

/-- Outcome of running the stability-wait loop under bounded fuel:
it returned after matching at sample index `k` (having slept `k` times),
it raised `IOError` while taking sample index `k`, or the fuel ran out
with the loop still running. -/
inductive WaitOutcome where
  | returned (k : Nat)
  | ioError (k : Nat)
  | running
  deriving DecidableEq, Repr

/-- One-to-one embedding of the `while True` loop body: `prev` is the
Python `file_size` variable (an `Int`, since it starts at `-1`), `i` the
index of the sample about to be taken. -/
def waitAux (sizes : Nat → Option Nat) (prev : Int) (i : Nat) : Nat → WaitOutcome
  | 0 => .running
  | fuel + 1 =>
    match sizes i with
    | none => .ioError i
    | some cur =>
      if (cur : Int) = prev then .returned i
      else waitAux sizes (cur : Int) (i + 1) fuel

/-- `wait_for_file_write_completion`: the loop entered with
`file_size = -1` at sample index `0`. -/
def waitForFileWriteCompletion (sizes : Nat → Option Nat) (fuel : Nat) : WaitOutcome :=
  waitAux sizes (-1) 0 fuel

/-! ## Retry loop: `AudioTranscriber.transcribe` (src/main.py:68-78)

`transcribe` starts with `attempt = 0` and loops: call `_transcribe`; on
success sleep 1 second and return; on exception, raise it if
`attempt > 3`, else increment `attempt` and retry immediately.  The engine
(`_transcribe`) is modelled as a function from the 1-based call index to
`Except String String`, so a run can be described by which calls fail.
The result records how many engine calls and how many 1-second sleeps
occurred, together with the returned text or the raised exception. -/

structure RetryResult where
  calls : Nat
  sleeps : Nat
  outcome : Except String String
  deriving Repr

/-- The loop body of `transcribe`, parameterised by the index of the call
about to be made and the current value of the `attempt` counter.  The
recursion terminates because `attempt` strictly increases on each failed
call and the loop raises once `attempt > 3`. -/
def transcribeAux (engine : Nat → Except String String) (callIdx attempt : Nat) :
    RetryResult :=
  match engine callIdx with
  | .ok t => { calls := 1, sleeps := 1, outcome := .ok t }
  | .error e =>
    if attempt > 3 then { calls := 1, sleeps := 0, outcome := .error e }
    else
      let rest := transcribeAux engine (callIdx + 1) (attempt + 1)
      { calls := rest.calls + 1, sleeps := rest.sleeps, outcome := rest.outcome }
termination_by 4 - attempt
decreasing_by omega

/-- `AudioTranscriber.transcribe`: the retry loop entered with
`attempt = 0`, about to make engine call number 1. -/
def transcribe (engine : Nat → Except String String) : RetryResult :=
  transcribeAux engine 1 0

/-! ## Segment joining: `AudioTranscriber._transcribe` (src/main.py:63-66)

`_transcribe` obtains a sequence of segments from the Whisper engine and
returns `"".join(segment.text for segment in segments)`.  The engine is
modelled by the list of segment texts it yields, in order. -/

/-- The final text built by `_transcribe` from the segment texts:
Python's `"".join`, which is a left fold of append over the empty
string. -/
def joinSegments (segments : List String) : String :=
  segments.foldl (fun acc s => acc ++ s) ""

/-! ## Notification sink: `MessageSender.send_message` (src/main.py:87-91)

`send_message` posts `{"content": message}` as the JSON body to the
webhook URL and calls `response.raise_for_status()`, which raises
`HTTPError` exactly for status codes in 400-599.  The transport is
modelled by the HTTP status code it answers with. -/

/-- The outbound POST request: destination URL and JSON body, the body
being a list of field-name/value pairs. -/
structure HttpPost where
  url : String
  jsonBody : List (String × String)
  deriving DecidableEq, Repr

/-- `requests.Response.raise_for_status`: raises for client errors
(400-499) and server errors (500-599), returns normally otherwise. -/
def raiseForStatus (status : Nat) : Except String Unit :=
  if 400 ≤ status ∧ status < 600 then .error "HTTPError" else .ok ()

/-- `MessageSender.send_message`: the request it posts and the result of
`raise_for_status` on the transport's answer. -/
def sendMessage (webhookUrl message : String) (status : Nat) :
    HttpPost × Except String Unit :=
  ({ url := webhookUrl, jsonBody := [("content", message)] }, raiseForStatus status)

/-! ## Path suffix: Python `pathlib.Path.suffix`

The handlers test `file.suffix == ".mp3"`.  `Path.suffix` takes the final
path component (the name) and, where `i` is the index of the last dot,
returns `name[i:]` when `0 < i < len(name) - 1`, else the empty string.
Path normalisation (trailing slashes, repeated separators) is not
modelled; the claims only use the suffix test and their concrete inputs
are plain file names. -/

/-- `str.rfind` specialised to one character: index of its last
occurrence, scanning left to right and keeping the latest hit. -/
def rfindChar (target : Char) : List Char → Nat → Option Nat → Option Nat
  | [], _, acc => acc
  | c :: cs, i, acc => rfindChar target cs (i + 1) (if c = target then some i else acc)

/-- Splitting a character list on a separator, mirroring `str.split`. -/
def splitChar (sep : Char) : List Char → List Char → List (List Char)
  | [], acc => [acc.reverse]
  | c :: cs, acc =>
    if c = sep then acc.reverse :: splitChar sep cs []
    else splitChar sep cs (c :: acc)

/-- `Path.name`: the final component after the last separator. -/
def pathName (p : String) : String :=
  ((splitChar '/' p.toList []).getLastD []).asString

/-- `Path.suffix`: the extension of the final component, dot included. -/
def pathSuffix (p : String) : String :=
  let name := pathName p
  match rfindChar '.' name.toList 0 none with
  | some i =>
    if 0 < i ∧ i + 1 < name.length then (name.toList.drop i).asString else ""
  | none => ""

/-! ## Event handlers: `AudioFileEventHandler` (src/main.py:113-143)

`on_created` first sends a debug notification, then tests the suffix of
`event.src_path`; on `.mp3` it waits for write completion and calls
`_process_file`.  `on_moved` does the same with `event.dest_path` but
without the stability wait.  `_process_file` calls
`transcriber.transcribe` and sends the transcription; it has no
`try`/`except`, so an exception from `transcribe` escapes the handler.

The effects are recorded in a trace: the notification messages sent (in
order), the paths passed to `transcribe` (in order), and the paths the
stability wait was run on.  The outcome of `AudioTranscriber.transcribe`
for a path is abstracted as `engine : String → Except String String`
(its terminal behaviour after the internal retries, proved separately
above); delivery of notifications is taken as succeeding, since the
claims under study do not involve transport failures. -/

/-- A filesystem event as delivered by the watchdog observer. -/
inductive FsEvent where
  | created (srcPath : String)
  | moved (srcPath destPath : String)
  deriving DecidableEq, Repr

/-- Trace of the handler's observable effects, each list in call order. -/
structure Trace where
  notifications : List String
  transcriptions : List String
  waits : List String
  deriving DecidableEq, Repr

def Trace.empty : Trace := { notifications := [], transcriptions := [], waits := [] }

/-- `AudioFileEventHandler._process_file`: call `transcribe`, then send
the transcription.  Returns the updated trace and, when `transcribe`
raised, the uncaught exception (`some e`), in which case no message is
sent. -/
def processFile (engine : String → Except String String) (t : Trace) (path : String) :
    Trace × Option String :=
  match engine path with
  | .ok txt =>
    ({ t with transcriptions := t.transcriptions ++ [path],
              notifications := t.notifications ++ [txt] }, none)
  | .error e =>
    ({ t with transcriptions := t.transcriptions ++ [path] }, some e)

/-- `AudioFileEventHandler.on_created` (src/main.py:132-137). -/
def onCreated (engine : String → Except String String) (t : Trace) (srcPath : String) :
    Trace × Option String :=
  let t := { t with notifications := t.notifications ++ ["DEBUG: New audio file created."] }
  if pathSuffix srcPath = ".mp3" then
    let t := { t with waits := t.waits ++ [srcPath] }
    processFile engine t srcPath
  else (t, none)

/-- `AudioFileEventHandler.on_moved` (src/main.py:139-143). -/
def onMoved (engine : String → Except String String) (t : Trace) (destPath : String) :
    Trace × Option String :=
  let t := { t with notifications := t.notifications ++ ["DEBUG: Audio file moved."] }
  if pathSuffix destPath = ".mp3" then
    processFile engine t destPath
  else (t, none)

/-- Dispatch of one event to its handler, as the observer does. -/
def handleEvent (engine : String → Except String String) (t : Trace) :
    FsEvent → Trace × Option String
  | .created p => onCreated engine t p
  | .moved _ dest => onMoved engine t dest

/-- Sequential, single-threaded processing of an event list on the
watch-delivery thread.  An exception escaping a handler stops the
dispatch (it propagates into the observer machinery). -/
def handleEvents (engine : String → Except String String) (t : Trace) :
    List FsEvent → Trace × Option String
  | [] => (t, none)
  | e :: es =>
    match handleEvent engine t e with
    | (t, none) => handleEvents engine t es
    | (t, some err) => (t, some err)

/-- How a single `on_created` invocation ends once the stability wait's
own behaviour is taken into account: normal completion, the waiter's
`IOError` escaping the handler uncaught (there is no `try`/`except`
around `wait_for_file_write_completion` in src/main.py:136), the
transcriber's exception escaping uncaught, or the handler still blocked
inside the wait. -/
inductive HandlerOutcome where
  | done
  | raisedIOError (sample : Nat)
  | raisedEngine (e : String)
  | stillWaiting
  deriving DecidableEq, Repr

/-- `AudioFileEventHandler.on_created` with the outcome of its
`wait_for_file_write_completion` call made explicit.  After the debug
notification and the suffix check, the wait runs; if it raises
`IOError`, `_process_file` is never reached and the error leaves the
handler (into the observer machinery), since nothing in the handler
catches it. -/
def onCreatedWithWait (engine : String → Except String String)
    (waitOutcome : WaitOutcome) (t : Trace) (srcPath : String) :
    Trace × HandlerOutcome :=
  let t := { t with notifications := t.notifications ++ ["DEBUG: New audio file created."] }
  if pathSuffix srcPath = ".mp3" then
    let t := { t with waits := t.waits ++ [srcPath] }
    match waitOutcome with
    | .ioError k => (t, .raisedIOError k)
    | .running => (t, .stillWaiting)
    | .returned _ =>
      match processFile engine t srcPath with
      | (t, none) => (t, .done)
      | (t, some e) => (t, .raisedEngine e)
  else (t, .done)

/-! ## Lemmas about the stability-wait loop -/

/-- While the loop is carrying `prev = sizes (i-1)` and stability is first
reached at sample `k`, the loop returns at `k` (given enough fuel). -/
lemma waitAux_stable (sizes : Nat → Nat) (k : Nat)
    (hstab : sizes k = sizes (k - 1))
    (hmin : ∀ j, j < k → 1 ≤ j → sizes j ≠ sizes (j - 1)) :
    ∀ fuel i, 1 ≤ i → i ≤ k → k - i < fuel →
      waitAux (fun n => some (sizes n)) (sizes (i - 1)) i fuel = .returned k := by
  intro fuel
  induction fuel with
  | zero => intro i _ _ h3; omega
  | succ fuel ih =>
    intro i h1 h2 h3
    by_cases hik : i = k
    · subst hik
      simp [waitAux, hstab]
    · have hlt : i < k := lt_of_le_of_ne h2 hik
      have hne : sizes i ≠ sizes (i - 1) := hmin i hlt h1
      have hcond : ¬ ((sizes i : Int) = (sizes (i - 1) : Int)) := by
        exact_mod_cast hne
      simp only [waitAux, hcond, if_false]
      have := ih (i + 1) (by omega) (by omega) (by omega)
      simpa using this

/-- If the size never repeats between consecutive samples, the loop never
returns, whatever the fuel. -/
lemma waitAux_growing (sizes : Nat → Nat) (hg : ∀ i, sizes (i + 1) ≠ sizes i) :
    ∀ fuel i (prev : Int),
      ((i = 0 ∧ prev = -1) ∨ (1 ≤ i ∧ prev = (sizes (i - 1) : Int))) →
      waitAux (fun n => some (sizes n)) prev i fuel = .running := by
  intro fuel
  induction fuel with
  | zero => intro i prev _; rfl
  | succ fuel ih =>
    intro i prev h
    rcases h with ⟨hi, hprev⟩ | ⟨hi, hprev⟩
    · subst hi hprev
      have hcond : ¬ ((sizes 0 : Int) = (-1 : Int)) := by omega
      simp only [waitAux, hcond, if_false]
      exact ih 1 (sizes 0 : Int) (Or.inr ⟨le_refl 1, rfl⟩)
    · subst hprev
      have hne : sizes i ≠ sizes (i - 1) := by
        have := hg (i - 1)
        rwa [Nat.sub_add_cancel hi] at this
      have hcond : ¬ ((sizes i : Int) = (sizes (i - 1) : Int)) := by
        exact_mod_cast hne
      simp only [waitAux, hcond, if_false]
      exact ih (i + 1) (sizes i : Int) (Or.inr ⟨by omega, by simp⟩)

/-- The loop can only return at a sample index at least as large as the
index it is currently at. -/
lemma waitAux_returned_ge (sizes : Nat → Option Nat) :
    ∀ fuel i (prev : Int) k,
      waitAux sizes prev i fuel = .returned k → i ≤ k := by
  intro fuel
  induction fuel with
  | zero => intro i prev k h; exact absurd h (by simp [waitAux])
  | succ fuel ih =>
    intro i prev k h
    rw [waitAux] at h
    rcases hsi : sizes i with _ | cur
    · rw [hsi] at h; exact absurd h (by simp)
    · rw [hsi] at h
      dsimp only at h
      by_cases hcond : (cur : Int) = prev
      · rw [if_pos hcond] at h
        have : i = k := by injection h
        omega
      · rw [if_neg hcond] at h
        have := ih (i + 1) (cur : Int) k h
        omega

/-- While the loop is carrying `prev = s (i-1)` and the path vanishes at
sample `v` before any stability, the loop raises `IOError` at `v`. -/
lemma waitAux_vanish (s : Nat → Nat) (sizes : Nat → Option Nat) (v : Nat)
    (hs : ∀ j, j < v → sizes j = some (s j))
    (hv : sizes v = none)
    (hmin : ∀ j, j < v → 1 ≤ j → s j ≠ s (j - 1)) :
    ∀ fuel i, 1 ≤ i → i ≤ v → v - i < fuel →
      waitAux sizes (s (i - 1) : Int) i fuel = .ioError v := by
  intro fuel
  induction fuel with
  | zero => intro i _ _ h3; omega
  | succ fuel ih =>
    intro i h1 h2 h3
    by_cases hiv : i = v
    · subst hiv
      rw [waitAux, hv]
    · have hlt : i < v := lt_of_le_of_ne h2 hiv
      rw [waitAux, hs i hlt]
      dsimp only
      have hne : ¬ ((s i : Int) = (s (i - 1) : Int)) := by
        exact_mod_cast hmin i hlt h1
      rw [if_neg hne]
      have := ih (i + 1) (by omega) (by omega) (by omega)
      simpa using this

/-! ## Claim theorems for the stability waiter -/

/-- C6: `awaitStable` returns exactly when two consecutive samples are
equal: when equality of consecutive samples first holds at sample `k`
(so the size changed on every earlier sample), the loop returns at `k`
with no further poll cycle, and for a size sequence that never repeats
between consecutive samples it never returns, whatever the fuel. -/
theorem C6_await_stable_iff_consecutive_equal :
    (∀ (sizes : Nat → Nat) (k fuel : Nat), 1 ≤ k →
      sizes k = sizes (k - 1) →
      (∀ j, j < k → 1 ≤ j → sizes j ≠ sizes (j - 1)) →
      k < fuel →
      waitForFileWriteCompletion (fun i => some (sizes i)) fuel = .returned k) ∧
    (∀ (sizes : Nat → Nat), (∀ i, sizes (i + 1) ≠ sizes i) →
      ∀ fuel, waitForFileWriteCompletion (fun i => some (sizes i)) fuel = .running) := by
  constructor
  · intro sizes k fuel hk hstab hmin hfuel
    obtain ⟨f, rfl⟩ : ∃ f, fuel = f + 1 := ⟨fuel - 1, by omega⟩
    unfold waitForFileWriteCompletion
    rw [waitAux]
    dsimp only
    have hcond : ¬ ((sizes 0 : Int) = (-1 : Int)) := by omega
    rw [if_neg hcond]
    have := waitAux_stable sizes k hstab hmin f 1 (le_refl 1) hk (by omega)
    simpa using this
  · intro sizes hg fuel
    exact waitAux_growing sizes hg fuel 0 (-1) (Or.inl ⟨rfl, rfl⟩)

/-- Witness for C6: a constant size returns at sample 1; a strictly
changing size is still running after any amount of fuel. -/
theorem C6_witness :
    waitForFileWriteCompletion (fun _ => some 5) 3 = WaitOutcome.returned 1 ∧
    waitForFileWriteCompletion (fun i => some i) 7 = WaitOutcome.running :=
  ⟨C6_await_stable_iff_consecutive_equal.1 (fun _ => 5) 1 3 (le_refl 1) rfl
      (by decide) (by decide),
   C6_await_stable_iff_consecutive_equal.2 (fun i => i) (fun i => Nat.succ_ne_self i) 7⟩

/-- Outcome of the whole wait when the path disappears at sample `v`
before stability was reached: the `IOError` raised at that sample. -/
lemma wait_vanish_ioError (s : Nat → Nat) (sizes : Nat → Option Nat)
    (v fuel : Nat)
    (hs : ∀ j, j < v → sizes j = some (s j))
    (hv : sizes v = none)
    (hmin : ∀ j, j < v → 1 ≤ j → s j ≠ s (j - 1))
    (hfuel : v < fuel) :
    waitForFileWriteCompletion sizes fuel = .ioError v := by
  obtain ⟨f, rfl⟩ : ∃ f, fuel = f + 1 := ⟨fuel - 1, by omega⟩
  unfold waitForFileWriteCompletion
  by_cases hv0 : v = 0
  · subst hv0; rw [waitAux, hv]
  · rw [waitAux, hs 0 (by omega)]
    dsimp only
    have hcond : ¬ ((s 0 : Int) = (-1 : Int)) := by omega
    rw [if_neg hcond]
    have := waitAux_vanish s sizes v hs hv hmin f 1 (le_refl 1) (by omega) (by omega)
    simpa using this

/-- Counterexample to C7: when `gone.mp3` grows for two samples and then
vanishes, the `IOError` is not confined to that file's processing — it
escapes `on_created` itself uncaught (no transcription happens and the
handler ends in `raisedIOError`), passing into the observer machinery,
so nothing in this code aborts only that file's processing. -/
theorem C7_counterexample :
    onCreatedWithWait (fun _ => Except.ok "t")
        (waitForFileWriteCompletion (fun i => if i < 2 then some i else none) 10)
        Trace.empty "gone.mp3" =
      ({ notifications := ["DEBUG: New audio file created."],
         transcriptions := [], waits := ["gone.mp3"] },
       HandlerOutcome.raisedIOError 2) := by
  decide

/-- C7 (amended): if the watched path disappears mid-poll during the
stability wait, the wait fails with an `IOError` that propagates out of
`wait_for_file_write_completion` uncaught and then out of `on_created`
as well: the file is never transcribed, no message beyond the initial
debug one is sent, and the handler ends with the `IOError` escaping —
the code confines the error to neither the waiter nor the per-file
pipeline. -/
theorem C7_ioError_escapes_handler (engine : String → Except String String)
    (s : Nat → Nat) (sizes : Nat → Option Nat) (p : String) (v fuel : Nat)
    (hsuf : pathSuffix p = ".mp3")
    (hs : ∀ j, j < v → sizes j = some (s j))
    (hv : sizes v = none)
    (hmin : ∀ j, j < v → 1 ≤ j → s j ≠ s (j - 1))
    (hfuel : v < fuel) :
    onCreatedWithWait engine (waitForFileWriteCompletion sizes fuel) Trace.empty p =
      ({ notifications := ["DEBUG: New audio file created."],
         transcriptions := [], waits := [p] },
       HandlerOutcome.raisedIOError v) := by
  rw [wait_vanish_ioError s sizes v fuel hs hv hmin hfuel]
  simp [onCreatedWithWait, Trace.empty, hsuf]

/-- Witness for C7 (amended): `lost.mp3` vanishing at the second sample
makes the handler end with the escaping `IOError`. -/
theorem C7_escape_witness :
    pathSuffix "lost.mp3" = ".mp3" ∧
    onCreatedWithWait (fun _ => Except.error "unused")
        (waitForFileWriteCompletion (fun i => if i < 1 then some 0 else none) 9)
        Trace.empty "lost.mp3" =
      ({ notifications := ["DEBUG: New audio file created."],
         transcriptions := [], waits := ["lost.mp3"] },
       HandlerOutcome.raisedIOError 1) :=
  ⟨by decide, C7_ioError_escapes_handler (fun _ => Except.error "unused") (fun _ => 0)
      (fun i => if i < 1 then some 0 else none) "lost.mp3" 1 9
      (by decide) (by decide) rfl (by decide) (by decide)⟩

/-- C10: the previous-size tracker starts at the sentinel `-1`, which can
never equal an actual non-negative size, so the first comparison always
fails: any return happens at a sample index `k ≥ 1`, i.e. after at least
two samples and at least one full `check_interval` sleep. -/
theorem C10_first_comparison_always_fails (sizes : Nat → Nat) (fuel k : Nat)
    (h : waitForFileWriteCompletion (fun i => some (sizes i)) fuel = .returned k) :
    1 ≤ k := by
  match fuel with
  | 0 => exact absurd h (by simp [waitForFileWriteCompletion, waitAux])
  | f + 1 =>
    unfold waitForFileWriteCompletion at h
    rw [waitAux] at h
    dsimp only at h
    have hcond : ¬ ((sizes 0 : Int) = (-1 : Int)) := by omega
    rw [if_neg hcond] at h
    exact waitAux_returned_ge _ f 1 _ k h

/-- Witness for C10: a file of constant size still needs two samples; the
loop returns at sample index 1. -/
theorem C10_witness :
    waitForFileWriteCompletion (fun _ => some 5) 4 = WaitOutcome.returned 1 ∧ 1 ≤ 1 :=
  ⟨by decide, C10_first_comparison_always_fails (fun _ => 5) 4 1 (by decide)⟩

/-! ## Claim theorems for the retry loop -/

/-- Counterexample to C2: with an engine that fails on every call, the
retry loop makes 5 engine calls, not at most 4 — the guard `attempt > 3`
is only checked after the failure, and `attempt` is incremented after the
check, so a 5th call does occur. -/
theorem C2_counterexample :
    (transcribe (fun _ => Except.error "boom")).calls = 5 := by
  simp [transcribe, transcribeAux]

/-- C2 (amended): `transcribe` makes at most 5 attempts.  If the engine
fails on attempts 1-3 and succeeds on attempt 4, the attempt-4 result is
returned (4 calls); if the engine fails on attempts 1-5, the 5th failure
is re-raised and no 6th engine call happens (exactly 5 calls). -/
theorem C2_retry_bound_is_five (engine : Nat → Except String String) :
    (∀ e1 e2 e3 t, engine 1 = .error e1 → engine 2 = .error e2 →
      engine 3 = .error e3 → engine 4 = .ok t →
      transcribe engine = { calls := 4, sleeps := 1, outcome := .ok t }) ∧
    (∀ e1 e2 e3 e4 e5, engine 1 = .error e1 → engine 2 = .error e2 →
      engine 3 = .error e3 → engine 4 = .error e4 → engine 5 = .error e5 →
      transcribe engine = { calls := 5, sleeps := 0, outcome := .error e5 }) := by
  constructor
  · intro e1 e2 e3 t h1 h2 h3 h4
    simp [transcribe, transcribeAux, h1, h2, h3, h4]
  · intro e1 e2 e3 e4 e5 h1 h2 h3 h4 h5
    simp [transcribe, transcribeAux, h1, h2, h3, h4, h5]

/-- Witness for C2 (amended): concrete engines realising the
fails-1-to-3-then-succeeds and the always-fails schedules. -/
theorem C2_witness :
    transcribe (fun i => if i ≤ 3 then Except.error "f" else Except.ok "T") =
      { calls := 4, sleeps := 1, outcome := Except.ok "T" } ∧
    transcribe (fun _ => Except.error "g") =
      { calls := 5, sleeps := 0, outcome := Except.error "g" } :=
  ⟨(C2_retry_bound_is_five (fun i => if i ≤ 3 then Except.error "f" else Except.ok "T")).1
      "f" "f" "f" "T" rfl rfl rfl rfl,
   (C2_retry_bound_is_five (fun _ => Except.error "g")).2
      "g" "g" "g" "g" "g" rfl rfl rfl rfl rfl⟩

/-- Counterexample to C5: with an engine failing on call 1 and succeeding
on call 2, two attempts happen but only one 1-second sleep — the failing
attempt is retried immediately, with no pause. -/
theorem C5_counterexample :
    (transcribe (fun i => if i ≤ 1 then Except.error "f" else Except.ok "T")).calls = 2 ∧
    (transcribe (fun i => if i ≤ 1 then Except.error "f" else Except.ok "T")).sleeps = 1 := by
  constructor <;> simp [transcribe, transcribeAux]

/-- Auxiliary characterisation of the sleeps performed by the retry loop:
exactly one sleep when the run ends in success, none when it ends in the
re-raised exception. -/
lemma transcribeAux_eq (engine : Nat → Except String String) (callIdx attempt : Nat) :
    transcribeAux engine callIdx attempt =
      match engine callIdx with
      | .ok t => { calls := 1, sleeps := 1, outcome := .ok t }
      | .error e =>
        if attempt > 3 then { calls := 1, sleeps := 0, outcome := .error e }
        else
          let rest := transcribeAux engine (callIdx + 1) (attempt + 1)
          { calls := rest.calls + 1, sleeps := rest.sleeps, outcome := rest.outcome } := by
  rw [transcribeAux]

lemma transcribeAux_sleeps (engine : Nat → Except String String) :
    ∀ n attempt callIdx, 4 - attempt ≤ n →
      (transcribeAux engine callIdx attempt).sleeps =
        (if (transcribeAux engine callIdx attempt).outcome.isOk then 1 else 0) := by
  intro n
  induction n with
  | zero =>
    intro attempt callIdx h
    have ha : attempt > 3 := by omega
    rw [transcribeAux_eq]
    rcases he : engine callIdx with e | t
    · dsimp only
      rw [if_pos ha]
      rfl
    · rfl
  | succ n ih =>
    intro attempt callIdx h
    rw [transcribeAux_eq]
    rcases he : engine callIdx with e | t
    · dsimp only
      by_cases ha : attempt > 3
      · rw [if_pos ha]; rfl
      · rw [if_neg ha]
        exact ih (attempt + 1) (callIdx + 1) (by omega)
    · rfl

/-- C5 (amended): the fixed 1-second pause inside `transcribe` happens
only on the success path, right before returning the transcription; a
failed attempt is retried immediately and a fully failed run sleeps not
at all. -/
theorem C5_sleep_only_on_success (engine : Nat → Except String String) :
    (transcribe engine).sleeps =
      (if (transcribe engine).outcome.isOk then 1 else 0) :=
  transcribeAux_sleeps engine 4 0 1 (by omega)

/-! ## Claim theorems for the event handlers -/

/-- Counterexample to C1: one `Created` followed by one `Moved` landing
on the same final path `a.mp3`, with a succeeding engine, yields two
transcription calls and two success notifications — there is no in-flight
tracking in the handlers. -/
theorem C1_counterexample :
    (handleEvents (fun _ => Except.ok "hello") Trace.empty
        [FsEvent.created "a.mp3", FsEvent.moved "tmp/part" "a.mp3"]).1.transcriptions.length
      = 2 ∧
    (handleEvents (fun _ => Except.ok "hello") Trace.empty
        [FsEvent.created "a.mp3", FsEvent.moved "tmp/part" "a.mp3"]).1.notifications.count
        "hello" = 2 := by
  constructor <;> decide

/-- C1 (amended): a single logical arrival (`Created` then `Moved` to the
same final `.mp3` path) is processed twice: the trace holds exactly two
transcription calls for the path and exactly two success notifications
(one after each debug message), since neither handler consults any
in-flight-path registry. -/
theorem C1_created_then_moved_processes_twice (engine : String → Except String String)
    (p q txt : String) (hsuf : pathSuffix p = ".mp3") (hok : engine p = .ok txt) :
    handleEvents engine Trace.empty [FsEvent.created p, FsEvent.moved q p] =
      ({ notifications := ["DEBUG: New audio file created.", txt,
                           "DEBUG: Audio file moved.", txt],
         transcriptions := [p, p], waits := [p] }, none) := by
  simp [handleEvents, handleEvent, onCreated, onMoved, processFile, Trace.empty, hsuf, hok]

/-- Witness for C1 (amended): the concrete create/move pair on `a.mp3`. -/
theorem C1_witness :
    pathSuffix "a.mp3" = ".mp3" ∧
    handleEvents (fun _ => Except.ok "hi") Trace.empty
        [FsEvent.created "a.mp3", FsEvent.moved "tmp/part" "a.mp3"] =
      ({ notifications := ["DEBUG: New audio file created.", "hi",
                           "DEBUG: Audio file moved.", "hi"],
         transcriptions := ["a.mp3", "a.mp3"], waits := ["a.mp3"] }, none) :=
  ⟨by decide, C1_created_then_moved_processes_twice (fun _ => Except.ok "hi")
      "a.mp3" "tmp/part" "hi" (by decide) rfl⟩

/-- Counterexample to C3: an event for `note.txt` (extension not `.mp3`)
still causes one notification call — the unconditional debug message is
sent before the extension check, so the notification list is not
empty. -/
theorem C3_counterexample :
    (onCreated (fun _ => Except.ok "t") Trace.empty "note.txt").1.notifications =
      ["DEBUG: New audio file created."] ∧
    (onCreated (fun _ => Except.ok "t") Trace.empty "note.txt").1.notifications ≠ [] ∧
    (onCreated (fun _ => Except.ok "t") Trace.empty "note.txt").1.transcriptions = [] := by
  refine ⟨by decide, by decide, by decide⟩

/-- C3 (amended): for a created or moved event whose resulting path's
extension is not `.mp3`, no transcription call and no stability wait is
made and the handler stops normally; the only notification sent is the
unconditional debug message that precedes the extension check. -/
theorem C3_wrong_extension_not_processed (engine : String → Except String String)
    (p : String) (hsuf : pathSuffix p ≠ ".mp3") :
    onCreated engine Trace.empty p =
      ({ notifications := ["DEBUG: New audio file created."],
         transcriptions := [], waits := [] }, none) ∧
    onMoved engine Trace.empty p =
      ({ notifications := ["DEBUG: Audio file moved."],
         transcriptions := [], waits := [] }, none) := by
  constructor <;> simp [onCreated, onMoved, Trace.empty, hsuf]

/-- Witness for C3 (amended): the concrete non-audio path `note.txt`. -/
theorem C3_witness :
    pathSuffix "note.txt" ≠ ".mp3" ∧
    onMoved (fun _ => Except.ok "t") Trace.empty "note.txt" =
      ({ notifications := ["DEBUG: Audio file moved."],
         transcriptions := [], waits := [] }, none) :=
  ⟨by decide,
   (C3_wrong_extension_not_processed (fun _ => Except.ok "t") "note.txt" (by decide)).2⟩

/-- Counterexample to C4: with an engine whose terminal outcome is
failure, the handler for `bad.mp3` ends with the exception escaping
uncaught (`some "boom"`), and the notification trace holds only the
debug message — no failure message is ever sent to the sink. -/
theorem C4_counterexample :
    onCreated (fun _ => Except.error "boom") Trace.empty "bad.mp3" =
      ({ notifications := ["DEBUG: New audio file created."],
         transcriptions := ["bad.mp3"], waits := ["bad.mp3"] }, some "boom") := by
  decide

/-- C4 (amended): on terminal transcription failure the exception
propagates out of `_process_file` and the handler uncaught; no failure
notification is sent (`_process_file` has no `try`/`except`), so whether
the watcher survives is left to the observer library, not to this
code. -/
theorem C4_terminal_failure_escapes_handler (engine : String → Except String String)
    (p e : String) (hsuf : pathSuffix p = ".mp3") (herr : engine p = .error e) :
    onCreated engine Trace.empty p =
      ({ notifications := ["DEBUG: New audio file created."],
         transcriptions := [p], waits := [p] }, some e) := by
  simp [onCreated, processFile, Trace.empty, hsuf, herr]

/-- Witness for C4 (amended): the concrete failing file `oops.mp3`. -/
theorem C4_witness :
    pathSuffix "oops.mp3" = ".mp3" ∧
    onCreated (fun _ => Except.error "fail") Trace.empty "oops.mp3" =
      ({ notifications := ["DEBUG: New audio file created."],
         transcriptions := ["oops.mp3"], waits := ["oops.mp3"] }, some "fail") :=
  ⟨by decide, C4_terminal_failure_escapes_handler (fun _ => Except.error "fail")
      "oops.mp3" "fail" (by decide) rfl⟩

/-! ## Claim theorems for the notification sink and segment joining -/

/-- C8: `send_message` posts a JSON body whose `content` field is exactly
the given text, to the configured webhook URL, and raises exactly when
`raise_for_status` does, i.e. on an HTTP error status (400-599). -/
theorem C8_content_verbatim_and_error_iff (u m : String) (s : Nat) :
    (sendMessage u m s).1.url = u ∧
    (sendMessage u m s).1.jsonBody = [("content", m)] ∧
    ((sendMessage u m s).2 = Except.ok () ↔ ¬ (400 ≤ s ∧ s < 600)) := by
  refine ⟨rfl, rfl, ?_⟩
  by_cases h : 400 ≤ s ∧ s < 600 <;> simp [sendMessage, raiseForStatus, h]

/-- Auxiliary: a left fold of append started from `a` is `a` followed by
the fold started from the empty string. -/
lemma foldl_append_init (l : List String) :
    ∀ a : String, l.foldl (fun acc s => acc ++ s) a =
      a ++ l.foldl (fun acc s => acc ++ s) "" := by
  induction l with
  | nil => intro a; rw [List.foldl_nil, List.foldl_nil, String.append_empty]
  | cons x xs ih =>
    intro a
    simp only [List.foldl_cons]
    rw [ih (a ++ x), ih ("" ++ x), String.empty_append, String.append_assoc]

/-- C9: the final transcription text is the segments' texts concatenated
in order with no separator: joining the empty sequence gives the empty
text, and joining `s :: rest` gives `s` followed directly by the join of
`rest`. -/
theorem C9_concat_in_order_no_separator :
    joinSegments [] = "" ∧
    ∀ (s : String) (rest : List String),
      joinSegments (s :: rest) = s ++ joinSegments rest := by
  refine ⟨rfl, ?_⟩
  intro s rest
  unfold joinSegments
  simp only [List.foldl_cons]
  rw [foldl_append_init rest ("" ++ s), String.empty_append]

end Transcriber
